import Mathlib

/-!
# JustBazar relay: admission policy of `main.go`

A shallow embedding of the custom `RejectEvent` handler that `main` registers on the
relay, and of the registration itself.  The helpers `validateEventPaid`,
`validateAuctionEvent`, `validateBidEvent` and `handlePaymentUpdate` belong to the same Go
package but live in other files; the handler takes the three validators as parameters.
Go functions may have effects, so each helper is a state transformer over an arbitrary
world type `σ` (ledger, store, payment provider, ...).
-/

namespace JustBazar

/-! ## Data model -/

/-- The fields of `nostr.Event`.  `Kind` is a Go `int`, `CreatedAt` an `int64` timestamp. -/
structure Event where
  ID : String
  PubKey : String
  CreatedAt : Int
  Kind : Int
  Tags : List (List String)
  Content : String
  Sig : String
  deriving DecidableEq, Repr

/-- `RelayConfig` of `main.go`.  `TicketPriceSats` is an `int64`. -/
structure RelayConfig where
  PostgresDatabase : String
  TicketPriceSats : Int
  ZbdApiKey : String
  RelayUrl : String
  NostrPrivateKey : String
  deriving DecidableEq, Repr

/-- Range of a Go `int64`. -/
def isInt64 (x : Int) : Prop := -(2 : Int) ^ 63 ≤ x ∧ x < (2 : Int) ^ 63

instance (x : Int) : Decidable (isInt64 x) := by
  unfold isInt64; exact inferInstance

/-- What a `RejectEvent` handler returns: the pair `(reject, msg)`. -/
abbrev Decision := Bool × String

/-- A Go function returning `(reject bool, msg string)` that may read and change the world. -/
abbrev Effect (σ : Type) := σ → Decision × σ

/-- The handler lists of `khatru.Relay` that `main` touches. -/
structure Relay (SE QE CE DE RE : Type) where
  StoreEvent : List SE
  QueryEvents : List QE
  CountEvents : List CE
  DeleteEvent : List DE
  RejectEvent : List RE

/-! ## The custom `RejectEvent` handler (`main.go`, lines 66-77) -/

/-- The closure appended to `relay.RejectEvent`.  `config`, `relay` and `db` are the
variables it captures; the three helpers are the package functions it calls. -/
def rejectEventHandler {Ctx R DB σ : Type} (config : RelayConfig)
    (validateEventPaid : Ctx → Event → R → Effect σ)
    (validateAuctionEvent : Event → Effect σ)
    (validateBidEvent : DB → Event → Effect σ)
    (relay : R) (db : DB) (ctx : Ctx) (evt : Event) : Effect σ :=
  fun s =>
    if config.TicketPriceSats > 0 then
      validateEventPaid ctx evt relay s
    else if evt.Kind = 33222 then   -- case 33222: create auction
      validateAuctionEvent evt s
    else if evt.Kind = 1077 then    -- case 1077: make bid
      validateBidEvent db evt s
    else
      ((true, ""), s)

/-- The statement `relay.RejectEvent = append(relay.RejectEvent, h)`. -/
def appendRejectEvent {SE QE CE DE RE : Type} (h : RE) (relay : Relay SE QE CE DE RE) :
    Relay SE QE CE DE RE :=
  { relay with RejectEvent := relay.RejectEvent ++ [h] }

/-- Lines 61-78 of `main`: `policies.ApplySaneDefaults(relay)` (library code, taken as a
parameter) followed by the registration of the custom handler. -/
def applyPolicies {SE QE CE DE RE : Type}
    (ApplySaneDefaults : Relay SE QE CE DE RE → Relay SE QE CE DE RE)
    (h : RE) (relay : Relay SE QE CE DE RE) : Relay SE QE CE DE RE :=
  appendRejectEvent h (ApplySaneDefaults relay)

/-! ## Pending-payment ledger and payment-gated admission (spec sections 3, 4.1, 4.3) -/

/-- Modelled from the spec: the status of a PendingCharge (section 3); the type is declared
in a file of the package that is not available. -/
inductive ChargeStatus where
  | pending
  | paid
  | expired
  | failed
  deriving DecidableEq, Repr

/-- Modelled from the spec: the PendingCharge record of section 3 (charge identifier,
correlated event identifier, amount, status, created-at); its declaration is not available. -/
structure PendingCharge where
  chargeID : String
  eventID : String
  amount : Int
  status : ChargeStatus
  createdAt : Int
  deriving DecidableEq, Repr

/-- Modelled from the spec: a ledger record, the PendingCharge together with the Event
payload held during the pending window (section 3, ownership); not available in the source. -/
structure LedgerEntry where
  charge : PendingCharge
  held : Event
  deriving DecidableEq, Repr

/-- Modelled from the spec: the Pending-Payment Ledger (sections 2 and 4.3), a mapping keyed
by charge identifier, kept as the list of its records; not available in the source. -/
abbrev Ledger := List LedgerEntry

/-- Modelled from the spec: `Put(charge)` of section 4.3, missing from the source.  The
ledger maps charge identifiers, so a record with the same identifier is replaced. -/
def Ledger.Put (e : LedgerEntry) (l : Ledger) : Ledger :=
  e :: l.filter (fun x => decide (x.charge.chargeID ≠ e.charge.chargeID))

/-- Modelled from the spec: `Get(chargeID)` of section 4.3, missing from the source;
`none` is NotFound. -/
def Ledger.Get (chargeID : String) (l : Ledger) : Option LedgerEntry :=
  l.find? (fun x => decide (x.charge.chargeID = chargeID))

/-- Modelled from the spec: `GetByEvent(eventID)` of section 4.3, missing from the source:
the lookup in the active index, that is the non-terminal (pending) charge of the event. -/
def Ledger.GetByEvent (eventID : String) (l : Ledger) : Option LedgerEntry :=
  l.find? (fun x => decide (x.charge.eventID = eventID ∧ x.charge.status = ChargeStatus.pending))

/-- Modelled from the spec: the number of active (pending) charges the ledger holds for
an event identifier, the quantity bounded by the invariant of section 3. -/
def Ledger.activeCharges (eventID : String) (l : Ledger) : Nat :=
  (l.filter (fun x =>
    decide (x.charge.eventID = eventID ∧ x.charge.status = ChargeStatus.pending))).length

/-- Modelled from the spec: the terminal outcomes a charge can be resolved to (section 3). -/
inductive Resolution where
  | paid
  | failed
  | expired
  deriving DecidableEq, Repr

/-- Modelled from the spec: `Resolve(chargeID, outcome) -> (event, ok)` of section 4.3,
missing from the source.  A charge that is absent or no longer pending gives `ok = false`
and no change; a pending charge makes its terminal transition, is released from the ledger,
and its held event is returned on a paid outcome only. -/
def Ledger.Resolve (chargeID : String) (outcome : Resolution) (l : Ledger) :
    (Option Event × Bool) × Ledger :=
  match Ledger.Get chargeID l with
  | none => ((none, false), l)
  | some e =>
    if e.charge.status = ChargeStatus.pending then
      ((if outcome = Resolution.paid then some e.held else none, true),
        l.filter (fun x => decide (x.charge.chargeID ≠ chargeID)))
    else
      ((none, false), l)

/-- Modelled from the spec: the response of the Invoice Gateway (section 6), a
provider-assigned charge identifier and a payable reference. -/
structure GatewayResponse where
  chargeID : String
  invoice : String
  deriving DecidableEq, Repr

/-- Modelled from the spec: the Invoice Gateway (sections 2 and 6), an external provider
with its own state `γ`: given the amount and a reference it answers with a charge or
fails (`none`). -/
abbrev InvoiceGateway (γ : Type) := Int → String → γ → Option GatewayResponse × γ

/-- Modelled from the spec: the world the payment path acts on: the ledger, the state of
the payment provider, the sequence of events handed to the external store's `Save`, and
the clock that stamps new charges. -/
structure World (γ : Type) where
  ledger : Ledger
  provider : γ
  store : List Event
  clock : Int

/-- Modelled from the spec: the `Outcome` of section 4.1. -/
inductive Outcome where
  | Reject (reason : String)
  | Accept
  | Pending (chargeRef : String)
  deriving DecidableEq, Repr

/-- Modelled from the spec: the payment-gated branch of `Decide` (section 4.1, first and
last bullets), which is what `validateEventPaid`, missing from the source, is specified to
do.  It reads the price from the configuration, as the Go function reads the global. -/
def validateEventPaidSpec {γ : Type} (config : RelayConfig) (gateway : InvoiceGateway γ)
    (evt : Event) (w : World γ) : Outcome × World γ :=
  match Ledger.GetByEvent evt.ID w.ledger with
  | some e => (Outcome.Pending e.charge.chargeID, w)
  | none =>
    let r := gateway config.TicketPriceSats evt.ID w.provider
    match r.1 with
    | none => (Outcome.Reject "payment backend unavailable", { w with provider := r.2 })
    | some c =>
      (Outcome.Pending c.chargeID,
        { w with
          provider := r.2
          ledger := Ledger.Put
            { charge := { chargeID := c.chargeID, eventID := evt.ID,
                          amount := config.TicketPriceSats,
                          status := ChargeStatus.pending, createdAt := w.clock },
              held := evt } w.ledger })

/-- The payment check as the handler receives it: the specified outcome of
`validateEventPaidSpec`, turned into `(reject, msg)` by `render`.  How the missing Go
function words its answer is not specified, so `render` is a parameter. -/
def paidCheck {Ctx R γ : Type} (render : Outcome → Decision) (config : RelayConfig)
    (gateway : InvoiceGateway γ) : Ctx → Event → R → Effect (World γ) :=
  fun _ evt _ w =>
    (render (validateEventPaidSpec config gateway evt w).1,
      (validateEventPaidSpec config gateway evt w).2)

/-! ## Payment webhook (spec section 4.4) -/

/-- Modelled from the spec: the status carried by a provider callback (section 4.4). -/
inductive WebhookStatus where
  | success
  | failure
  | expiry
  deriving DecidableEq, Repr

/-- Modelled from the spec: what the webhook handler answers to the provider. -/
inductive WebhookResponse where
  | ok
  | error (reason : String)
  deriving DecidableEq, Repr

/-- Modelled from the spec: the Payment Webhook Handler of section 4.4, which is what
`handlePaymentUpdate`, missing from the source, is specified to do.  `storeAccepts` is the
external store's answer to `Save`; a refused save of a paid event is surfaced (section 7). -/
def handlePaymentUpdateSpec {γ : Type} (storeAccepts : Event → List Event → Bool)
    (chargeRef : String) (status : WebhookStatus) (w : World γ) :
    WebhookResponse × World γ :=
  match Ledger.Get chargeRef w.ledger with
  | none => (WebhookResponse.ok, w)
  | some _ =>
    match status with
    | WebhookStatus.success =>
      let r := Ledger.Resolve chargeRef Resolution.paid w.ledger
      match r.1.1 with
      | some evt =>
        (if storeAccepts evt w.store then WebhookResponse.ok
          else WebhookResponse.error "store write failure",
          { w with ledger := r.2, store := w.store ++ [evt] })
      | none => (WebhookResponse.ok, { w with ledger := r.2 })
    | WebhookStatus.failure =>
      (WebhookResponse.ok,
        { w with ledger := (Ledger.Resolve chargeRef Resolution.failed w.ledger).2 })
    | WebhookStatus.expiry =>
      (WebhookResponse.ok,
        { w with ledger := (Ledger.Resolve chargeRef Resolution.expired w.ledger).2 })

/-- Modelled from the spec: the worlds the payment path can reach from an empty ledger by
gated submissions (section 4.1) and provider callbacks (section 4.4). -/
inductive Reachable {γ : Type} (config : RelayConfig) (gateway : InvoiceGateway γ)
    (storeAccepts : Event → List Event → Bool) : World γ → Prop where
  | start (w : World γ) (h : w.ledger = []) : Reachable config gateway storeAccepts w
  | submitted (w : World γ) (evt : Event) (h : Reachable config gateway storeAccepts w) :
      Reachable config gateway storeAccepts (validateEventPaidSpec config gateway evt w).2
  | notified (w : World γ) (chargeRef : String) (status : WebhookStatus)
      (h : Reachable config gateway storeAccepts w) :
      Reachable config gateway storeAccepts
        (handlePaymentUpdateSpec storeAccepts chargeRef status w).2

/-! ## Auction validator (spec section 4.2) -/

/-- Modelled from the spec: the auction descriptor an auction-creation payload declares
(section 4.2): starting price, currency or unit, closing time, item description.  A field
the payload does not declare is `none`. -/
structure AuctionDescriptor where
  startingPrice : Option Int
  currency : Option String
  closingTime : Option Int
  description : Option String
  deriving DecidableEq, Repr

/-- Modelled from the spec: the auction-creation validator of section 4.2, which is what
`validateAuctionEvent`, missing from the source, is specified to do.  How the payload
encodes the descriptor is not specified, so the reading `descriptor` is a parameter.  The
closing time is examined first: section 8 requires a closing time in the past to be always
reported as such, and a missing one to be reported as `missing closing time`. -/
def validateAuctionEventSpec (descriptor : Event → AuctionDescriptor) (evt : Event) :
    Decision :=
  match (descriptor evt).closingTime with
  | none => (true, "missing closing time")
  | some t =>
    if t ≤ evt.CreatedAt then (true, "closing time is not in the future")
    else if (descriptor evt).startingPrice = none then (true, "missing starting price")
    else if (descriptor evt).currency = none then (true, "missing currency")
    else if (descriptor evt).description = none ∨ (descriptor evt).description = some ""
      then (true, "missing item description")
    else (false, "")

/-- A function without effects, seen as an `Effect`: the spec's validators are pure. -/
def pureEffect {σ : Type} (d : Decision) : Effect σ := fun s => (d, s)

/-- A reason cites a field when the field's name occurs in it. -/
def citesField (field reason : String) : Prop := field.data <:+: reason.data

instance (field reason : String) : Decidable (citesField field reason) := by
  unfold citesField; exact inferInstance

/-! ## Sample inputs -/

/-- An event of the given kind with fixed other fields. -/
def sampleEvent (kind : Int) : Event :=
  { ID := "e1", PubKey := "pk", CreatedAt := 1700000000, Kind := kind,
    Tags := [], Content := "", Sig := "sig" }

/-- A configuration with the given ticket price. -/
def sampleConfig (price : Int) : RelayConfig :=
  { PostgresDatabase := "", TicketPriceSats := price, ZbdApiKey := "k",
    RelayUrl := "", NostrPrivateKey := "" }

/-- A payment check over a counter world: always answers `payment required` and
counts its invocations. -/
def countingPaid : Unit → Event → Unit → Effect Nat :=
  fun _ _ _ n => ((true, "payment required"), n + 1)

/-- A payment check over a counter world that accepts and adds ten to the counter. -/
def acceptingPaid : Unit → Event → Unit → Effect Nat :=
  fun _ _ _ n => ((false, ""), n + 10)

/-- An auction validator over a counter world: rejects with a fixed reason. -/
def sampleAuction : Event → Effect Nat :=
  fun _ n => ((true, "auction"), n)

/-- A bid validator over a counter world whose answer shows the store handle it was given. -/
def sampleBid : String → Event → Effect Nat :=
  fun db _ n => ((false, db), n)

/-- A descriptor reading that finds every field, with the closing time at 1600000000. -/
def sampleDescriptor : Event → AuctionDescriptor :=
  fun _ => { startingPrice := some 100, currency := some "sats",
             closingTime := some 1600000000, description := some "a lamp" }

/-- A provider that always issues the charge `c1`, and counts the charges it issued. -/
def sampleGateway : InvoiceGateway Nat :=
  fun _ _ n => (some { chargeID := "c1", invoice := "lnbc1" }, n + 1)

/-- A world with an empty ledger, a fresh provider and an empty store. -/
def emptyWorld : World Nat :=
  { ledger := [], provider := 0, store := [], clock := 1700000001 }

/-- The ledger record of a pending charge `c1` for the bid event `e1`. -/
def sampleEntry : LedgerEntry :=
  { charge := { chargeID := "c1", eventID := "e1", amount := 1000,
                status := ChargeStatus.pending, createdAt := 1700000001 },
    held := sampleEvent 1077 }

/-- A world whose ledger holds `sampleEntry` and whose store is empty. -/
def pendingWorld : World Nat :=
  { ledger := [sampleEntry], provider := 1, store := [], clock := 1700000002 }

/-- A rendering of outcomes as `(reject, msg)` used in examples. -/
def sampleRender : Outcome → Decision
  | Outcome.Reject reason => (true, reason)
  | Outcome.Accept => (false, "")
  | Outcome.Pending chargeRef => (true, chargeRef)

/-- A bid validator over the payment world that accepts. -/
def worldBid : String → Event → Effect (World Nat) :=
  fun _ _ w => ((false, ""), w)

/-! ## Theorems on the handler -/

/-- With a non-positive price the handler dispatches by kind alone. -/
theorem rejectEventHandler_of_not_pos {Ctx R DB σ : Type} (config : RelayConfig)
    (paid : Ctx → Event → R → Effect σ) (auction : Event → Effect σ)
    (bid : DB → Event → Effect σ) (relay : R) (db : DB) (ctx : Ctx) (evt : Event) (s : σ)
    (h : config.TicketPriceSats ≤ 0) :
    rejectEventHandler config paid auction bid relay db ctx evt s =
      if evt.Kind = 33222 then auction evt s
      else if evt.Kind = 1077 then bid db evt s
      else ((true, ""), s) := by
  have hn : ¬ config.TicketPriceSats > 0 := not_lt.mpr h
  simp only [rejectEventHandler, hn, if_false]

/-- C1 (as stated, refuted): at price 0 an event of kind 1, neither 33222 nor 1077, is
not accepted; the handler returns `reject = true`. -/
theorem C1_other_kinds_not_accepted :
    (sampleConfig 0).TicketPriceSats = 0 ∧ (sampleEvent 1).Kind ≠ 33222 ∧
      (sampleEvent 1).Kind ≠ 1077 ∧
      ¬ (rejectEventHandler (sampleConfig 0) countingPaid sampleAuction sampleBid
          () "db" () (sampleEvent 1) 0).1.1 = false := by
  decide

/-- C1 (amended): with the ticket price equal to 0, every event whose kind is neither
33222 nor 1077 is rejected by the handler: it returns `reject = true` with the empty
message and leaves the world unchanged, whatever the other fields and helpers are. -/
theorem C1_other_kinds_rejected {Ctx R DB σ : Type} (config : RelayConfig)
    (paid : Ctx → Event → R → Effect σ) (auction : Event → Effect σ)
    (bid : DB → Event → Effect σ) (relay : R) (db : DB) (ctx : Ctx) (evt : Event) (s : σ)
    (hprice : config.TicketPriceSats = 0)
    (hauction : evt.Kind ≠ 33222) (hbid : evt.Kind ≠ 1077) :
    rejectEventHandler config paid auction bid relay db ctx evt s = ((true, ""), s) := by
  rw [rejectEventHandler_of_not_pos config paid auction bid relay db ctx evt s (le_of_eq hprice)]
  simp only [hauction, hbid, if_false]

/-- Witness of C1 (amended) at price 0 and kind 1. -/
theorem C1_other_kinds_rejected_witness :
    rejectEventHandler (sampleConfig 0) countingPaid sampleAuction sampleBid
      () "db" () (sampleEvent 1) 0 = ((true, ""), 0) :=
  C1_other_kinds_rejected (sampleConfig 0) countingPaid sampleAuction sampleBid
    () "db" () (sampleEvent 1) 0 (by decide) (by decide) (by decide)

/-- C2: with a ticket price greater than zero, for every event of every kind and whatever
the auction and bid validators are, the handler's decision and effect are exactly those of
`validateEventPaid` on that event; in particular an event the payment check rejects is
rejected by the handler. -/
theorem C2_gated_decision_is_payment_check {Ctx R DB σ : Type} (config : RelayConfig)
    (paid : Ctx → Event → R → Effect σ) (auction : Event → Effect σ)
    (bid : DB → Event → Effect σ) (relay : R) (db : DB) (ctx : Ctx) (evt : Event) (s : σ)
    (hprice : config.TicketPriceSats > 0) :
    rejectEventHandler config paid auction bid relay db ctx evt s = paid ctx evt relay s ∧
      ((paid ctx evt relay s).1.1 = true →
        (rejectEventHandler config paid auction bid relay db ctx evt s).1.1 = true) := by
  have h : rejectEventHandler config paid auction bid relay db ctx evt s
      = paid ctx evt relay s := by
    simp only [rejectEventHandler, hprice, if_true]
  exact ⟨h, fun hr => by rw [h]; exact hr⟩

/-- Witness of C2: price 1000, a bid event, a payment check that rejects. -/
theorem C2_gated_decision_is_payment_check_witness :
    (sampleConfig 1000).TicketPriceSats > 0 ∧
      (rejectEventHandler (sampleConfig 1000) countingPaid sampleAuction sampleBid
          () "db" () (sampleEvent 1077) 0 = countingPaid () (sampleEvent 1077) () 0 ∧
        ((countingPaid () (sampleEvent 1077) () 0).1.1 = true →
          (rejectEventHandler (sampleConfig 1000) countingPaid sampleAuction sampleBid
            () "db" () (sampleEvent 1077) 0).1.1 = true)) :=
  ⟨by decide,
    C2_gated_decision_is_payment_check (sampleConfig 1000) countingPaid sampleAuction
      sampleBid () "db" () (sampleEvent 1077) 0 (by decide)⟩

/-- C3: with the ticket price equal to 0, for every event of kind 33222 the handler's
decision and effect are exactly those of `validateAuctionEvent` applied to that event. -/
theorem C3_auction_decision_is_auction_validator {Ctx R DB σ : Type} (config : RelayConfig)
    (paid : Ctx → Event → R → Effect σ) (auction : Event → Effect σ)
    (bid : DB → Event → Effect σ) (relay : R) (db : DB) (ctx : Ctx) (evt : Event) (s : σ)
    (hprice : config.TicketPriceSats = 0) (hkind : evt.Kind = 33222) :
    rejectEventHandler config paid auction bid relay db ctx evt s = auction evt s := by
  rw [rejectEventHandler_of_not_pos config paid auction bid relay db ctx evt s (le_of_eq hprice)]
  simp only [hkind, if_true]

/-- Witness of C3: price 0 and an event of kind 33222. -/
theorem C3_auction_decision_is_auction_validator_witness :
    (sampleConfig 0).TicketPriceSats = 0 ∧ (sampleEvent 33222).Kind = 33222 ∧
      rejectEventHandler (sampleConfig 0) countingPaid sampleAuction sampleBid
        () "db" () (sampleEvent 33222) 0 = sampleAuction (sampleEvent 33222) 0 :=
  ⟨by decide, by decide,
    C3_auction_decision_is_auction_validator (sampleConfig 0) countingPaid sampleAuction
      sampleBid () "db" () (sampleEvent 33222) 0 (by decide) (by decide)⟩

/-- C4: with the ticket price equal to 0, for every event of kind 1077 the handler's
decision and effect are exactly those of `validateBidEvent` applied to the store handle
`db` and that event; and the store handle reaches no other helper: whenever the payment
path is taken or the kind is not 1077, the result is the same for every store handle. -/
theorem C4_bid_decision_is_bid_validator {Ctx R DB σ : Type} (config : RelayConfig)
    (paid : Ctx → Event → R → Effect σ) (auction : Event → Effect σ)
    (bid : DB → Event → Effect σ) (relay : R) (db : DB) (ctx : Ctx) (evt : Event) (s : σ)
    (hprice : config.TicketPriceSats = 0) (hkind : evt.Kind = 1077) :
    rejectEventHandler config paid auction bid relay db ctx evt s = bid db evt s ∧
      ∀ (config2 : RelayConfig) (evt2 : Event) (db2 : DB),
        (config2.TicketPriceSats > 0 ∨ evt2.Kind ≠ 1077) →
        rejectEventHandler config2 paid auction bid relay db2 ctx evt2 s =
          rejectEventHandler config2 paid auction bid relay db ctx evt2 s := by
  constructor
  · rw [rejectEventHandler_of_not_pos config paid auction bid relay db ctx evt s
      (le_of_eq hprice)]
    have h1 : ¬ evt.Kind = 33222 := by rw [hkind]; decide
    rw [if_neg h1, if_pos hkind]
  · intro config2 evt2 db2 h
    unfold rejectEventHandler
    by_cases hp : config2.TicketPriceSats > 0
    · simp only [hp, if_true]
    · have hk : ¬ evt2.Kind = 1077 := h.resolve_left hp
      simp only [hp, hk, if_false]

/-- Witness of C4: price 0 and an event of kind 1077. -/
theorem C4_bid_decision_is_bid_validator_witness :
    (sampleConfig 0).TicketPriceSats = 0 ∧ (sampleEvent 1077).Kind = 1077 ∧
      (rejectEventHandler (sampleConfig 0) countingPaid sampleAuction sampleBid
          () "db" () (sampleEvent 1077) 0 = sampleBid "db" (sampleEvent 1077) 0 ∧
        ∀ (config2 : RelayConfig) (evt2 : Event) (db2 : String),
          (config2.TicketPriceSats > 0 ∨ evt2.Kind ≠ 1077) →
          rejectEventHandler config2 countingPaid sampleAuction sampleBid () db2 () evt2 0 =
            rejectEventHandler config2 countingPaid sampleAuction sampleBid () "db" () evt2 0) :=
  ⟨by decide, by decide,
    C4_bid_decision_is_bid_validator (sampleConfig 0) countingPaid sampleAuction
      sampleBid () "db" () (sampleEvent 1077) 0 (by decide) (by decide)⟩

/-- C5: with the ticket price equal to 0, for every event the handler's decision and the
world it leaves are those of the dispatch by kind, in which `validateEventPaid` does not
occur: they are the same whatever the payment check is or would have returned, and when
the two validators leave the world as it is (no charge, no ledger entry), so does the
handler. -/
theorem C5_ungated_never_takes_payment_path {Ctx R DB σ : Type} (config : RelayConfig)
    (paid paid2 : Ctx → Event → R → Effect σ) (auction : Event → Effect σ)
    (bid : DB → Event → Effect σ) (relay : R) (db : DB) (ctx : Ctx) (evt : Event) (s : σ)
    (hprice : config.TicketPriceSats = 0) :
    rejectEventHandler config paid auction bid relay db ctx evt s =
        rejectEventHandler config paid2 auction bid relay db ctx evt s ∧
      rejectEventHandler config paid auction bid relay db ctx evt s =
        (if evt.Kind = 33222 then auction evt s
          else if evt.Kind = 1077 then bid db evt s
          else ((true, ""), s)) ∧
      ((∀ e x, (auction e x).2 = x) → (∀ e x, (bid db e x).2 = x) →
        (rejectEventHandler config paid auction bid relay db ctx evt s).2 = s) := by
  have h1 := rejectEventHandler_of_not_pos config paid auction bid relay db ctx evt s
    (le_of_eq hprice)
  have h2 := rejectEventHandler_of_not_pos config paid2 auction bid relay db ctx evt s
    (le_of_eq hprice)
  refine ⟨h1.trans h2.symm, h1, fun ha hb => ?_⟩
  rw [h1]
  by_cases hk : evt.Kind = 33222
  · rw [if_pos hk]; exact ha evt s
  · rw [if_neg hk]
    by_cases hk2 : evt.Kind = 1077
    · rw [if_pos hk2]; exact hb evt s
    · rw [if_neg hk2]

/-- Witness of C5: at price 0 a payment check that counts its calls and one that accepts
give the same decision and leave the counter at 0. -/
theorem C5_ungated_never_takes_payment_path_witness :
    (sampleConfig 0).TicketPriceSats = 0 ∧
      (rejectEventHandler (sampleConfig 0) countingPaid sampleAuction sampleBid
          () "db" () (sampleEvent 33222) 0 =
        rejectEventHandler (sampleConfig 0) acceptingPaid sampleAuction sampleBid
          () "db" () (sampleEvent 33222) 0 ∧
      rejectEventHandler (sampleConfig 0) countingPaid sampleAuction sampleBid
          () "db" () (sampleEvent 33222) 0 =
        (if (sampleEvent 33222).Kind = 33222 then sampleAuction (sampleEvent 33222) 0
          else if (sampleEvent 33222).Kind = 1077 then sampleBid "db" (sampleEvent 33222) 0
          else ((true, ""), 0)) ∧
      ((∀ e x, (sampleAuction e x).2 = x) → (∀ e x, (sampleBid "db" e x).2 = x) →
        (rejectEventHandler (sampleConfig 0) countingPaid sampleAuction sampleBid
          () "db" () (sampleEvent 33222) 0).2 = 0)) :=
  ⟨by decide,
    C5_ungated_never_takes_payment_path (sampleConfig 0) countingPaid acceptingPaid
      sampleAuction sampleBid () "db" () (sampleEvent 33222) 0 (by decide)⟩

/-- C9: the gate tests `TicketPriceSats > 0` only: for every negative ticket price and
every event, the handler's decision and effect equal those at price 0, whatever the
payment check is; a negative price disables payment gating. -/
theorem C9_negative_price_disables_gating {Ctx R DB σ : Type} (config : RelayConfig)
    (paid paid2 : Ctx → Event → R → Effect σ) (auction : Event → Effect σ)
    (bid : DB → Event → Effect σ) (relay : R) (db : DB) (ctx : Ctx) (evt : Event) (s : σ)
    (hneg : config.TicketPriceSats < 0) :
    rejectEventHandler config paid auction bid relay db ctx evt s =
      rejectEventHandler { config with TicketPriceSats := 0 } paid2 auction bid
        relay db ctx evt s := by
  have h1 := rejectEventHandler_of_not_pos config paid auction bid relay db ctx evt s
    (le_of_lt hneg)
  have h2 := rejectEventHandler_of_not_pos { config with TicketPriceSats := 0 } paid2
    auction bid relay db ctx evt s (le_refl 0)
  exact h1.trans h2.symm

/-- Witness of C9 at the least `int64` price. -/
theorem C9_negative_price_disables_gating_witness :
    isInt64 (sampleConfig (-9223372036854775808)).TicketPriceSats ∧
      (sampleConfig (-9223372036854775808)).TicketPriceSats < 0 ∧
      rejectEventHandler (sampleConfig (-9223372036854775808)) countingPaid sampleAuction
          sampleBid () "db" () (sampleEvent 1077) 0 =
        rejectEventHandler { sampleConfig (-9223372036854775808) with TicketPriceSats := 0 }
          acceptingPaid sampleAuction sampleBid () "db" () (sampleEvent 1077) 0 :=
  ⟨by decide, by decide,
    C9_negative_price_disables_gating (sampleConfig (-9223372036854775808)) countingPaid
      acceptingPaid sampleAuction sampleBid () "db" () (sampleEvent 1077) 0 (by decide)⟩

/-- C10: registering the custom policy after the default policies appends exactly one
handler at the end of `RejectEvent`: the length grows by one, every position below the old
length holds the handler it held, the next position holds the custom handler, and the
other handler lists are untouched. -/
theorem C10_registration_appends_one_handler {SE QE CE DE RE : Type}
    (ApplySaneDefaults : Relay SE QE CE DE RE → Relay SE QE CE DE RE)
    (h : RE) (relay : Relay SE QE CE DE RE) :
    (applyPolicies ApplySaneDefaults h relay).RejectEvent.length =
        (ApplySaneDefaults relay).RejectEvent.length + 1 ∧
      (applyPolicies ApplySaneDefaults h relay).RejectEvent.take
          (ApplySaneDefaults relay).RejectEvent.length = (ApplySaneDefaults relay).RejectEvent ∧
      (∀ i : Nat, (applyPolicies ApplySaneDefaults h relay).RejectEvent[i]? =
        if i < (ApplySaneDefaults relay).RejectEvent.length then
          (ApplySaneDefaults relay).RejectEvent[i]?
        else if i = (ApplySaneDefaults relay).RejectEvent.length then some h else none) ∧
      (applyPolicies ApplySaneDefaults h relay).StoreEvent = (ApplySaneDefaults relay).StoreEvent ∧
      (applyPolicies ApplySaneDefaults h relay).QueryEvents =
        (ApplySaneDefaults relay).QueryEvents ∧
      (applyPolicies ApplySaneDefaults h relay).CountEvents =
        (ApplySaneDefaults relay).CountEvents ∧
      (applyPolicies ApplySaneDefaults h relay).DeleteEvent =
        (ApplySaneDefaults relay).DeleteEvent := by
  refine ⟨?_, ?_, ?_, rfl, rfl, rfl, rfl⟩
  · simp [applyPolicies, appendRejectEvent]
  · simp [applyPolicies, appendRejectEvent]
  · intro i
    simp only [applyPolicies, appendRejectEvent]
    by_cases hi : i < (ApplySaneDefaults relay).RejectEvent.length
    · rw [if_pos hi, List.getElem?_append_left hi]
    · rw [if_neg hi]
      by_cases he : i = (ApplySaneDefaults relay).RejectEvent.length
      · rw [if_pos he, he]
        simp
      · rw [if_neg he]
        have hlt : (ApplySaneDefaults relay).RejectEvent.length < i := by omega
        rw [List.getElem?_eq_none]
        simp only [List.length_append, List.length_singleton]
        omega

/-! ## Theorems on the specified auction validator -/

/-- The specified auction validator rejects a closing time that is not strictly after the
creation timestamp, with the closing-time reason. -/
theorem validateAuctionEventSpec_not_future (descriptor : Event → AuctionDescriptor)
    (evt : Event) (t : Int) (hclose : (descriptor evt).closingTime = some t)
    (hle : t ≤ evt.CreatedAt) :
    validateAuctionEventSpec descriptor evt = (true, "closing time is not in the future") := by
  simp only [validateAuctionEventSpec, hclose, hle, if_true]

/-- C8: with the ticket price equal to 0, every event of kind 33222 whose declared closing
time lies before the event's creation timestamp is rejected by the handler (running the
specified auction validator), with a reason that names the closing time, and the world is
left unchanged. -/
theorem C8_past_closing_time_rejected {Ctx R DB σ : Type} (config : RelayConfig)
    (descriptor : Event → AuctionDescriptor)
    (paid : Ctx → Event → R → Effect σ) (bid : DB → Event → Effect σ)
    (relay : R) (db : DB) (ctx : Ctx) (evt : Event) (s : σ) (t : Int)
    (hprice : config.TicketPriceSats = 0) (hkind : evt.Kind = 33222)
    (hclose : (descriptor evt).closingTime = some t) (hpast : t < evt.CreatedAt) :
    ∃ reason : String,
      rejectEventHandler config paid
          (fun e => pureEffect (validateAuctionEventSpec descriptor e)) bid
          relay db ctx evt s = ((true, reason), s) ∧
        citesField "closing time" reason := by
  refine ⟨"closing time is not in the future", ?_, by decide⟩
  rw [rejectEventHandler_of_not_pos config paid _ bid relay db ctx evt s (le_of_eq hprice)]
  rw [if_pos hkind]
  simp only [pureEffect,
    validateAuctionEventSpec_not_future descriptor evt t hclose (le_of_lt hpast)]

/-- Witness of C8: an auction created at 1700000000 that closes at 1600000000. -/
theorem C8_past_closing_time_rejected_witness :
    (sampleConfig 0).TicketPriceSats = 0 ∧ (sampleEvent 33222).Kind = 33222 ∧
      (sampleDescriptor (sampleEvent 33222)).closingTime = some 1600000000 ∧
      (1600000000 : Int) < (sampleEvent 33222).CreatedAt ∧
      ∃ reason : String,
        rejectEventHandler (sampleConfig 0) countingPaid
            (fun e => pureEffect (validateAuctionEventSpec sampleDescriptor e)) sampleBid
            () "db" () (sampleEvent 33222) 0 = ((true, reason), 0) ∧
          citesField "closing time" reason :=
  ⟨by decide, by decide, by decide, by decide,
    C8_past_closing_time_rejected (sampleConfig 0) sampleDescriptor countingPaid sampleBid
      () "db" () (sampleEvent 33222) 0 1600000000 (by decide) (by decide) (by decide)
      (by decide)⟩

/-! ## Theorems on the specified ledger, payment check and webhook -/

/-- After the records of a charge identifier are removed, `Get` does not find it. -/
theorem Ledger.Get_filter_ne (chargeID : String) (l : Ledger) :
    Ledger.Get chargeID (l.filter (fun x => decide (x.charge.chargeID ≠ chargeID))) = none := by
  unfold Ledger.Get
  rw [List.find?_eq_none]
  intro x hx
  have h := (List.mem_filter.mp hx).2
  simpa using h

/-- Resolving a pending charge as paid returns its held event and releases the charge. -/
theorem Ledger.Resolve_paid_of_pending (chargeID : String) (l : Ledger) (e : LedgerEntry)
    (hget : Ledger.Get chargeID l = some e) (hpending : e.charge.status = ChargeStatus.pending) :
    Ledger.Resolve chargeID Resolution.paid l =
      ((some e.held, true), l.filter (fun x => decide (x.charge.chargeID ≠ chargeID))) := by
  simp only [Ledger.Resolve, hget, hpending, if_true]

/-- A webhook for a charge the ledger does not hold is a successful no-op. -/
theorem handlePaymentUpdateSpec_absent {γ : Type} (storeAccepts : Event → List Event → Bool)
    (chargeRef : String) (status : WebhookStatus) (w : World γ)
    (hget : Ledger.Get chargeRef w.ledger = none) :
    handlePaymentUpdateSpec storeAccepts chargeRef status w = (WebhookResponse.ok, w) := by
  simp only [handlePaymentUpdateSpec, hget]

/-- The first paid webhook for a pending charge hands the held event to the store once and
releases the charge. -/
theorem handlePaymentUpdateSpec_paid {γ : Type} (storeAccepts : Event → List Event → Bool)
    (chargeRef : String) (w : World γ) (e : LedgerEntry)
    (hget : Ledger.Get chargeRef w.ledger = some e)
    (hpending : e.charge.status = ChargeStatus.pending) :
    (handlePaymentUpdateSpec storeAccepts chargeRef WebhookStatus.success w).2 =
      { w with
        ledger := w.ledger.filter (fun x => decide (x.charge.chargeID ≠ chargeRef))
        store := w.store ++ [e.held] } := by
  simp only [handlePaymentUpdateSpec, hget,
    Ledger.Resolve_paid_of_pending chargeRef w.ledger e hget hpending]

/-- C7: for every pending charge in the ledger, the specified payment-update handler,
called with a success status, hands exactly the held event to the store, once; a second
call for the same charge, whatever its status, leaves the store and the rest of the world
unchanged and answers `ok`. -/
theorem C7_paid_resolution_writes_exactly_once {γ : Type}
    (storeAccepts : Event → List Event → Bool) (chargeRef : String) (w : World γ)
    (e : LedgerEntry) (status2 : WebhookStatus)
    (hget : Ledger.Get chargeRef w.ledger = some e)
    (hpending : e.charge.status = ChargeStatus.pending) :
    (handlePaymentUpdateSpec storeAccepts chargeRef WebhookStatus.success w).2.store =
        w.store ++ [e.held] ∧
      handlePaymentUpdateSpec storeAccepts chargeRef status2
          (handlePaymentUpdateSpec storeAccepts chargeRef WebhookStatus.success w).2 =
        (WebhookResponse.ok,
          (handlePaymentUpdateSpec storeAccepts chargeRef WebhookStatus.success w).2) := by
  have h1 := handlePaymentUpdateSpec_paid storeAccepts chargeRef w e hget hpending
  constructor
  · rw [h1]
  · apply handlePaymentUpdateSpec_absent
    rw [h1]
    exact Ledger.Get_filter_ne chargeRef w.ledger

/-- Witness of C7: the pending charge `c1` holding the bid event `e1`. -/
theorem C7_paid_resolution_writes_exactly_once_witness :
    Ledger.Get "c1" pendingWorld.ledger = some sampleEntry ∧
      sampleEntry.charge.status = ChargeStatus.pending ∧
      ((handlePaymentUpdateSpec (fun _ _ => true) "c1" WebhookStatus.success
          pendingWorld).2.store = pendingWorld.store ++ [sampleEntry.held] ∧
        handlePaymentUpdateSpec (fun _ _ => true) "c1" WebhookStatus.success
            (handlePaymentUpdateSpec (fun _ _ => true) "c1" WebhookStatus.success
              pendingWorld).2 =
          (WebhookResponse.ok,
            (handlePaymentUpdateSpec (fun _ _ => true) "c1" WebhookStatus.success
              pendingWorld).2)) :=
  ⟨by decide, by decide,
    C7_paid_resolution_writes_exactly_once (fun _ _ => true) "c1" pendingWorld sampleEntry
      WebhookStatus.success (by decide) (by decide)⟩

/-- When the active index has no charge for an event, the ledger counts none. -/
theorem Ledger.activeCharges_of_GetByEvent_none (eventID : String) (l : Ledger)
    (h : Ledger.GetByEvent eventID l = none) : Ledger.activeCharges eventID l = 0 := by
  unfold Ledger.GetByEvent at h
  unfold Ledger.activeCharges
  rw [List.find?_eq_none] at h
  rw [List.length_eq_zero, List.filter_eq_nil_iff]
  exact h

/-- Removing records never raises the number of active charges of an event. -/
theorem Ledger.activeCharges_filter_le (eventID : String) (q : LedgerEntry → Bool)
    (l : Ledger) : Ledger.activeCharges eventID (l.filter q) ≤ Ledger.activeCharges eventID l := by
  unfold Ledger.activeCharges
  exact ((List.filter_sublist l).filter _).length_le

/-- With gating on, the handler running the specified payment check returns the rendered
outcome of `validateEventPaidSpec` and the world that check leaves. -/
theorem rejectEventHandler_paidCheck {Ctx R DB γ : Type} (config : RelayConfig)
    (gateway : InvoiceGateway γ) (render : Outcome → Decision)
    (auction : Event → Effect (World γ)) (bid : DB → Event → Effect (World γ))
    (relay : R) (db : DB) (ctx : Ctx) (evt : Event) (w : World γ)
    (hprice : config.TicketPriceSats > 0) :
    rejectEventHandler config (paidCheck render config gateway) auction bid relay db ctx evt w =
      (render (validateEventPaidSpec config gateway evt w).1,
        (validateEventPaidSpec config gateway evt w).2) := by
  simp only [rejectEventHandler, hprice, if_true, paidCheck]

/-- A second submission of an event identifier whose first submission returned
`Pending c` returns `Pending c` again and changes nothing, and the ledger holds at most one
active charge for that identifier. -/
theorem validateEventPaidSpec_resubmit {γ : Type} (config : RelayConfig)
    (gateway : InvoiceGateway γ) (evt evt2 : Event) (w w1 : World γ) (c : String)
    (hsame : evt2.ID = evt.ID)
    (hinv : Ledger.activeCharges evt.ID w.ledger ≤ 1)
    (hfirst : (validateEventPaidSpec config gateway evt w).1 = Outcome.Pending c)
    (hbetween : w1.ledger = (validateEventPaidSpec config gateway evt w).2.ledger) :
    validateEventPaidSpec config gateway evt2 w1 = (Outcome.Pending c, w1) ∧
      Ledger.activeCharges evt.ID w1.ledger ≤ 1 := by
  unfold validateEventPaidSpec at hfirst hbetween
  cases hg : Ledger.GetByEvent evt.ID w.ledger with
  | some e =>
    simp only [hg] at hfirst hbetween
    have hc : e.charge.chargeID = c := by injection hfirst
    constructor
    · simp only [validateEventPaidSpec, hsame, hbetween, hg, hc]
    · rw [hbetween]; exact hinv
  | none =>
    simp only [hg] at hfirst hbetween
    cases hr : (gateway config.TicketPriceSats evt.ID w.provider).1 with
    | none =>
      simp only [hr] at hfirst
      exact absurd hfirst (by simp)
    | some r =>
      simp only [hr] at hfirst hbetween
      have hc : r.chargeID = c := by injection hfirst
      have hfound : Ledger.GetByEvent evt.ID w1.ledger =
          some { charge := { chargeID := r.chargeID, eventID := evt.ID,
                             amount := config.TicketPriceSats,
                             status := ChargeStatus.pending, createdAt := w.clock },
                 held := evt } := by
        rw [hbetween]
        simp [Ledger.GetByEvent, Ledger.Put]
      constructor
      · simp only [validateEventPaidSpec, hsame, hfound, hc]
      · rw [hbetween]
        have h0 := Ledger.activeCharges_of_GetByEvent_none evt.ID w.ledger hg
        have hle := Ledger.activeCharges_filter_le evt.ID
          (fun x => decide (x.charge.chargeID ≠ r.chargeID)) w.ledger
        have hcons : Ledger.activeCharges evt.ID
            (Ledger.Put { charge := { chargeID := r.chargeID, eventID := evt.ID,
                                      amount := config.TicketPriceSats,
                                      status := ChargeStatus.pending, createdAt := w.clock },
                          held := evt } w.ledger) =
            Ledger.activeCharges evt.ID
              (w.ledger.filter (fun x => decide (x.charge.chargeID ≠ r.chargeID))) + 1 := by
          simp [Ledger.activeCharges, Ledger.Put]
        rw [hcons]
        omega

/-- The ledger a gated submission leaves is the one it found, or that ledger with one new
pending charge put for the submitted event, which had no active charge. -/
theorem validateEventPaidSpec_ledger {γ : Type} (config : RelayConfig)
    (gateway : InvoiceGateway γ) (evt : Event) (w : World γ) :
    (validateEventPaidSpec config gateway evt w).2.ledger = w.ledger ∨
      ∃ e : LedgerEntry, e.charge.eventID = evt.ID ∧
        Ledger.GetByEvent evt.ID w.ledger = none ∧
        (validateEventPaidSpec config gateway evt w).2.ledger = Ledger.Put e w.ledger := by
  unfold validateEventPaidSpec
  cases hg : Ledger.GetByEvent evt.ID w.ledger with
  | some e => exact Or.inl rfl
  | none =>
    cases hr : (gateway config.TicketPriceSats evt.ID w.provider).1 with
    | none => simp [hr]
    | some r =>
      refine Or.inr ⟨⟨⟨r.chargeID, evt.ID, config.TicketPriceSats, ChargeStatus.pending,
        w.clock⟩, evt⟩, rfl, rfl, ?_⟩
      simp only [hr]

/-- The ledger a provider callback leaves is the one it found, or that ledger without the
records of the charge. -/
theorem handlePaymentUpdateSpec_ledger {γ : Type} (storeAccepts : Event → List Event → Bool)
    (chargeRef : String) (status : WebhookStatus) (w : World γ) :
    (handlePaymentUpdateSpec storeAccepts chargeRef status w).2.ledger = w.ledger ∨
      (handlePaymentUpdateSpec storeAccepts chargeRef status w).2.ledger =
        w.ledger.filter (fun x => decide (x.charge.chargeID ≠ chargeRef)) := by
  unfold handlePaymentUpdateSpec
  cases hg : Ledger.Get chargeRef w.ledger with
  | none => exact Or.inl rfl
  | some e =>
    by_cases hp : e.charge.status = ChargeStatus.pending
    · cases status <;> simp [Ledger.Resolve, hg, hp]
    · cases status <;> simp [Ledger.Resolve, hg, hp]

/-- Putting a record adds at most one active charge, and only for its own event. -/
theorem Ledger.activeCharges_Put_le (eventID : String) (e : LedgerEntry) (l : Ledger) :
    Ledger.activeCharges eventID (Ledger.Put e l) ≤
      Ledger.activeCharges eventID l + (if e.charge.eventID = eventID then 1 else 0) := by
  have hle := Ledger.activeCharges_filter_le eventID
    (fun x => decide (x.charge.chargeID ≠ e.charge.chargeID)) l
  have hcons : Ledger.activeCharges eventID (Ledger.Put e l) ≤
      Ledger.activeCharges eventID
          (l.filter (fun x => decide (x.charge.chargeID ≠ e.charge.chargeID))) +
        (if e.charge.eventID = eventID then 1 else 0) := by
    unfold Ledger.activeCharges Ledger.Put
    rw [List.filter_cons]
    by_cases he : e.charge.eventID = eventID
    · rw [if_pos he]
      split
      · simp
      · omega
    · have hf : decide (e.charge.eventID = eventID ∧
          e.charge.status = ChargeStatus.pending) = false := by simp [he]
      rw [if_neg he, hf]
      simp
  omega

/-- The invariant of section 3: in every reachable world the ledger holds at most one
active pending charge per event identifier. -/
theorem Reachable.activeCharges_le_one {γ : Type} (config : RelayConfig)
    (gateway : InvoiceGateway γ) (storeAccepts : Event → List Event → Bool) (w : World γ)
    (h : Reachable config gateway storeAccepts w) (eventID : String) :
    Ledger.activeCharges eventID w.ledger ≤ 1 := by
  induction h with
  | start w h0 => rw [h0]; simp [Ledger.activeCharges]
  | submitted w evt _ ih =>
    rcases validateEventPaidSpec_ledger config gateway evt w with hl | ⟨e, he, hnone, hl⟩
    · rw [hl]; exact ih
    · rw [hl]
      have hput := Ledger.activeCharges_Put_le eventID e w.ledger
      by_cases hid : e.charge.eventID = eventID
      · have h0 := Ledger.activeCharges_of_GetByEvent_none evt.ID w.ledger hnone
        rw [← he, hid] at h0
        rw [if_pos hid] at hput
        omega
      · rw [if_neg hid] at hput
        omega
  | notified w chargeRef status _ ih =>
    rcases handlePaymentUpdateSpec_ledger storeAccepts chargeRef status w with hl | hl
    · rw [hl]; exact ih
    · rw [hl]
      exact le_trans (Ledger.activeCharges_filter_le eventID _ w.ledger) ih

/-- C6: with a ticket price greater than zero, when a submission of an event is answered
`Pending c` by the specified payment check and an event with the same identifier is
submitted again while the ledger is as the first submission left it, both submissions
yield the charge reference `c` (through the handler: the same rendered decision), and after
the second submission the ledger holds at most one active pending charge for that event
identifier, provided it held at most one before. -/
theorem C6_resubmission_yields_same_charge {Ctx R DB γ : Type} (config : RelayConfig)
    (gateway : InvoiceGateway γ) (render : Outcome → Decision)
    (auction : Event → Effect (World γ)) (bid : DB → Event → Effect (World γ))
    (relay : R) (db : DB) (ctx : Ctx) (evt evt2 : Event) (w w1 : World γ) (c : String)
    (hprice : config.TicketPriceSats > 0)
    (hsame : evt2.ID = evt.ID)
    (hinv : Ledger.activeCharges evt.ID w.ledger ≤ 1)
    (hfirst : (validateEventPaidSpec config gateway evt w).1 = Outcome.Pending c)
    (hbetween : w1.ledger =
      (rejectEventHandler config (paidCheck render config gateway) auction bid
        relay db ctx evt w).2.ledger) :
    (rejectEventHandler config (paidCheck render config gateway) auction bid
        relay db ctx evt w).1 = render (Outcome.Pending c) ∧
      (validateEventPaidSpec config gateway evt2 w1).1 = Outcome.Pending c ∧
      (rejectEventHandler config (paidCheck render config gateway) auction bid
        relay db ctx evt2 w1).1 = render (Outcome.Pending c) ∧
      Ledger.activeCharges evt.ID
        (rejectEventHandler config (paidCheck render config gateway) auction bid
          relay db ctx evt2 w1).2.ledger ≤ 1 := by
  rw [rejectEventHandler_paidCheck config gateway render auction bid relay db ctx evt w hprice]
    at hbetween
  rw [rejectEventHandler_paidCheck config gateway render auction bid relay db ctx evt w hprice,
    rejectEventHandler_paidCheck config gateway render auction bid relay db ctx evt2 w1 hprice]
  have h := validateEventPaidSpec_resubmit config gateway evt evt2 w w1 c hsame hinv hfirst
    hbetween
  rw [h.1]
  exact ⟨by rw [hfirst], rfl, rfl, h.2⟩

/-- Witness of C6: price 1000, the bid event `e1` submitted twice to an empty ledger; the
provider issues the charge `c1`. -/
theorem C6_resubmission_yields_same_charge_witness :
    (sampleConfig 1000).TicketPriceSats > 0 ∧
      Ledger.activeCharges (sampleEvent 1077).ID emptyWorld.ledger ≤ 1 ∧
      (validateEventPaidSpec (sampleConfig 1000) sampleGateway (sampleEvent 1077)
        emptyWorld).1 = Outcome.Pending "c1" ∧
      ((rejectEventHandler (sampleConfig 1000)
            (paidCheck sampleRender (sampleConfig 1000) sampleGateway)
            (fun e => pureEffect (validateAuctionEventSpec sampleDescriptor e)) worldBid
            () "db" () (sampleEvent 1077) emptyWorld).1 = sampleRender (Outcome.Pending "c1") ∧
        (validateEventPaidSpec (sampleConfig 1000) sampleGateway (sampleEvent 1077)
          (validateEventPaidSpec (sampleConfig 1000) sampleGateway (sampleEvent 1077)
            emptyWorld).2).1 = Outcome.Pending "c1" ∧
        (rejectEventHandler (sampleConfig 1000)
            (paidCheck sampleRender (sampleConfig 1000) sampleGateway)
            (fun e => pureEffect (validateAuctionEventSpec sampleDescriptor e)) worldBid
            () "db" () (sampleEvent 1077)
            (validateEventPaidSpec (sampleConfig 1000) sampleGateway (sampleEvent 1077)
              emptyWorld).2).1 = sampleRender (Outcome.Pending "c1") ∧
        Ledger.activeCharges (sampleEvent 1077).ID
          (rejectEventHandler (sampleConfig 1000)
            (paidCheck sampleRender (sampleConfig 1000) sampleGateway)
            (fun e => pureEffect (validateAuctionEventSpec sampleDescriptor e)) worldBid
            () "db" () (sampleEvent 1077)
            (validateEventPaidSpec (sampleConfig 1000) sampleGateway (sampleEvent 1077)
              emptyWorld).2).2.ledger ≤ 1) :=
  ⟨by decide, by decide, by decide,
    C6_resubmission_yields_same_charge (sampleConfig 1000) sampleGateway sampleRender
      (fun e => pureEffect (validateAuctionEventSpec sampleDescriptor e)) worldBid
      () "db" () (sampleEvent 1077) (sampleEvent 1077) emptyWorld
      (validateEventPaidSpec (sampleConfig 1000) sampleGateway (sampleEvent 1077) emptyWorld).2
      "c1" (by decide) rfl (by decide) (by decide) (by decide)⟩

end JustBazar
